import Mathlib

/-!
Verification of the gen-novel-frontend authenticated request client and its
JSON helpers.

The repository ships an AuthenticatedRequestClient (the fetch-with-auth
wrapper described in spec sections 3 to 8) whose implementation file
src/utils/fetch-with-auth.ts and session helper src/lib/auth.ts are not part
of the source tree here; only their callers and the template guide embedded
in src/src/types/task.ts refer to them.  Those parts are therefore modelled
from the spec, as marked on each definition.  The JSON helpers
extractRelationships (src/unnamed/part_005) and parseJwtPayload
(src/unnamed/part_009) are embedded directly from their source.
-/

namespace GenNovel

/-! ## Session storage (spec section 3) -/

/-- Modelled from the spec: the Session record of spec section 3,
accessToken plus refreshToken plus resolved user identity. -/
structure Session where
  accessToken : String
  refreshToken : String
  user : String
deriving Repr, DecidableEq

/-- Modelled from the spec: the two redundant persistence locations of
spec section 3, a durable client-side store (localStorage) and a
short-lived cookie holding the access token (the auth-token cookie read by
the routing middleware). -/
structure Storage where
  durable : Option Session
  cookie : Option String
deriving Repr, DecidableEq

/-- Modelled from the spec: setAuthTokens of src/lib/auth.ts, which is
absent from the source tree.  Per the template guide and spec section 3 it
writes the session to localStorage and to the auth-token cookie together
(any write to one triggers a write to the other). -/
def setAuthTokens (s : Session) : Storage :=
  { durable := some s, cookie := some s.accessToken }

/-- Modelled from the spec: clearing the session in both storage
locations, the logout write path of spec sections 4.1 and 6. -/
def clearSession : Storage :=
  { durable := none, cookie := none }

/-- Reading the access token stored in the durable location. -/
def storedAccessToken (st : Storage) : Option String :=
  st.durable.map Session.accessToken

/-- The two storage locations agree on the access token. -/
def Storage.consistent (st : Storage) : Prop :=
  storedAccessToken st = st.cookie

instance (st : Storage) : Decidable st.consistent := by
  unfold Storage.consistent; infer_instance

/-! ## Requests and header framing (spec sections 4.1 and 6) -/

/-- Modelled from the spec: the inbound request descriptor of spec
section 6, url, method, headers and body. -/
structure Req where
  url : String
  method : String
  headers : List (String × String)
  body : String
deriving Repr, DecidableEq

/-- Whether the caller already supplied an Authorization header. -/
def hasAuthHeader (hdrs : List (String × String)) : Bool :=
  hdrs.any (fun p => p.1 == "Authorization")

/-- Modelled from the spec: header attachment of spec section 4.1 — attach
Authorization Bearer accessToken from the current session (if present)
without overwriting a caller-supplied Authorization header. -/
def buildHeaders (tok : Option String) (hdrs : List (String × String)) :
    List (String × String) :=
  match tok with
  | none => hdrs
  | some t => if hasAuthHeader hdrs then hdrs
              else hdrs ++ [("Authorization", "Bearer " ++ t)]

/-! ## The refresh state machine (spec sections 3, 4.1 and 8) -/

/-- Modelled from the spec: the single-flight flag of the RefreshState of
spec section 3; the per-episode states of spec section 4.1 collapse to
whether a refresh is in flight, since SETTLED states reset to IDLE
synchronously. -/
inductive RefreshMode where
  | idle
  | refreshing
deriving Repr, DecidableEq

/-- Modelled from the spec: the process-wide client state — the
single-flight refresh mode, the queue of pending requests awaiting replay,
the storage locations, and counters for the observable side effects
(outbound refresh calls, redirect navigations) together with the
per-episode redirected guard of the idempotent-logout property. -/
structure ClientState where
  mode : RefreshMode
  waiters : List Req
  refreshCalls : Nat
  redirects : Nat
  redirected : Bool
  storage : Storage
deriving Repr, DecidableEq

/-- Modelled from the spec: observing one 401 failure (spec section 4.1
steps 1 and 2).  If no refresh is in flight, mark the refresh in flight and
issue the single outbound refresh call; otherwise queue the request behind
the in-flight refresh without issuing a second call. -/
def observe401 (st : ClientState) (r : Req) : ClientState :=
  match st.mode with
  | .idle =>
      { st with mode := .refreshing,
                waiters := st.waiters ++ [r],
                refreshCalls := st.refreshCalls + 1 }
  | .refreshing =>
      { st with waiters := st.waiters ++ [r] }

/-- Modelled from the spec: N 401 failures observed within the same
synchronous tick, processed one after the other on the single-threaded
event loop (spec section 5). -/
def observeBatch (st : ClientState) (rs : List Req) : ClientState :=
  rs.foldl observe401 st

/-- Modelled from the spec: the failure path of spec section 4.1 step 4 —
clear the session in both locations and trigger the login redirect, with
the redirect fired at most once per failed-refresh episode (idempotent
logout, spec section 8). -/
def failurePath (st : ClientState) : ClientState :=
  if st.redirected then { st with storage := clearSession }
  else { st with storage := clearSession,
                 redirects := st.redirects + 1,
                 redirected := true }

/-- Modelled from the spec: refresh success settling (spec section 4.1
step 3).  Store the new session via the session-write path, drain the
waiter queue, reset to IDLE; the returned list is the set of requests
released for replay. -/
def settleSuccess (st : ClientState) (s : Session) : ClientState × List Req :=
  ({ st with mode := .idle, waiters := [], storage := setAuthTokens s },
   st.waiters)

/-- Modelled from the spec: refresh failure settling (spec section 4.1
step 4).  Reset to IDLE, run the failure path once, drain the waiter
queue; the returned list is the set of requests released with failure. -/
def settleFailure (st : ClientState) : ClientState × List Req :=
  (failurePath { st with mode := .idle, waiters := [] }, st.waiters)

/-! ## The per-request flow (spec sections 4.1, 6 and 7) -/

/-- An HTTP response: a status code and an opaque body. -/
structure Response where
  status : Nat
  body : String
deriving Repr, DecidableEq

/-- Result of one network send: a response, or a transient network error
(DNS, connection reset) per spec section 7. -/
inductive NetResult where
  | ok (r : Response)
  | netErr (msg : String)
deriving Repr, DecidableEq

/-- Modelled from the spec: outcome of the refresh endpoint call of spec
section 6 — either a valid payload with a new access token and an optional
rotated refresh token, or a failure (network error, non-2xx status, or
malformed payload, spec section 4.1 step 4). -/
inductive RefreshOutcome where
  | ok (accessToken : String) (refreshToken : Option String)
  | fail
deriving Repr, DecidableEq

/-- Modelled from the spec: the session produced by a successful refresh —
the new access token, the rotated refresh token if the refresh response
provided one (otherwise the stored one is kept), and the unchanged user. -/
def rotatedSession (old : Option Session) (newAT : String)
    (newRT : Option String) : Session :=
  { accessToken := newAT,
    refreshToken := newRT.getD ((old.map Session.refreshToken).getD ""),
    user := (old.map Session.user).getD "" }

/-- Environment oracle for one request call: the network result of the
original send, the refresh outcome if a refresh is performed, and the
network result of the replay if one is performed. -/
structure Env where
  firstResult : NetResult
  refreshOut : RefreshOutcome
  replayResult : NetResult
deriving Repr, DecidableEq

/-- How the caller's promise settles. -/
inductive Outcome where
  | resp (r : Response)
  | netFail (msg : String)
  | authFailure
  | suspended
deriving Repr, DecidableEq

/-- Everything observable about one request call: how the caller's promise
settles, the client state afterwards, the requests actually dispatched on
the wire (with their final headers), the queued waiters released when the
episode settles, and whether they were released with success. -/
structure FlowResult where
  outcome : Outcome
  state : ClientState
  sent : List Req
  released : List Req
  releasedOk : Bool
deriving Repr, DecidableEq

/-- Modelled from the spec: the request entry point of spec section 4.1,
absent from the source tree (src/utils/fetch-with-auth.ts).  Attach the
bearer header, send; a non-401 response or a network error passes through
unchanged with no retry and no session mutation.  On 401 with a refresh
already in flight, queue (outcome suspended until the episode settles).
On 401 with no refresh in flight, issue the single refresh call; on
success store the new tokens via the session-write path, release the
waiters and replay once with the new token; a second 401 after the replay
is terminal (failure path, no second refresh).  On refresh failure run the
failure path and release all waiters with failure. -/
def request (env : Env) (st : ClientState) (r : Req) : FlowResult :=
  let sent0 : Req := { r with headers := buildHeaders (storedAccessToken st.storage) r.headers }
  match env.firstResult with
  | .netErr m => ⟨.netFail m, st, [sent0], [], true⟩
  | .ok resp1 =>
    if resp1.status ≠ 401 then ⟨.resp resp1, st, [sent0], [], true⟩
    else
      match st.mode with
      | .refreshing =>
          ⟨.suspended, { st with waiters := st.waiters ++ [r] }, [sent0], [], true⟩
      | .idle =>
        let st1 := { st with mode := RefreshMode.refreshing,
                             refreshCalls := st.refreshCalls + 1 }
        match env.refreshOut with
        | .ok newAT newRT =>
            let s2 := rotatedSession st.storage.durable newAT newRT
            let st2 := { st1 with mode := RefreshMode.idle, waiters := [],
                                  storage := setAuthTokens s2 }
            let sent1 : Req := { r with headers := buildHeaders (some newAT) r.headers }
            match env.replayResult with
            | .netErr m => ⟨.netFail m, st2, [sent0, sent1], st.waiters, true⟩
            | .ok resp2 =>
              if resp2.status ≠ 401 then
                ⟨.resp resp2, st2, [sent0, sent1], st.waiters, true⟩
              else
                ⟨.authFailure, failurePath st2, [sent0, sent1], st.waiters, true⟩
        | .fail =>
            let st2 := failurePath { st1 with mode := RefreshMode.idle, waiters := [] }
            ⟨.authFailure, st2, [sent0], st.waiters, false⟩

/-! ## A JavaScript value model for the JSON helpers -/

/-- A JavaScript runtime value as far as the embedded helpers inspect it:
undefined, null, booleans, numbers, strings, arrays and plain objects. -/
inductive JVal where
  | undefined
  | null
  | bool (b : Bool)
  | num (n : Int)
  | str (s : String)
  | arr (xs : List JVal)
  | obj (fields : List (String × JVal))

/-- JavaScript falsiness as used by the embedded code: undefined, null,
false, 0 and the empty string are falsy (NaN never arises here). -/
def JVal.falsy : JVal → Bool
  | .undefined => true
  | .null => true
  | .bool b => !b
  | .num n => n == 0
  | .str s => s == ""
  | .arr _ => false
  | .obj _ => false

/-- The typeof v === "object" test: true for null, arrays and objects. -/
def JVal.isObject : JVal → Bool
  | .null => true
  | .arr _ => true
  | .obj _ => true
  | _ => false

/-- The typeof v === "string" test. -/
def JVal.isString : JVal → Bool
  | .str _ => true
  | _ => false

/-- Property read record.k: the field's value on a plain object, undefined
otherwise (the helpers never read named properties off arrays). -/
def JVal.getField : JVal → String → JVal
  | .obj fs, k => match fs.find? (fun p => p.1 == k) with
                  | some p => p.2
                  | none => .undefined
  | _, _ => .undefined

/-- The k in record test: key present on a plain object. -/
def JVal.hasField : JVal → String → Bool
  | .obj fs, k => fs.any (fun p => p.1 == k)
  | _, _ => false

/-- The Array.isArray test, returning the elements when it holds. -/
def JVal.getArr? : JVal → Option (List JVal)
  | .arr xs => some xs
  | _ => none

/-- The string test of the source, returning the string when it holds:
typeof v === "string" ? v : undefined. -/
def JVal.strOpt : JVal → Option String
  | .str s => some s
  | _ => none

/-! ## extractRelationships (src/unnamed/part_005, lines 31 to 61) -/

/-- The CharacterRelationshipEdge projection kept by the drawer: the
characterId and relationType strings and the optional name string. -/
structure CharacterRelationshipEdge where
  characterId : String
  relationType : String
  name : Option String
deriving Repr, DecidableEq

/-- Embedding of the inner normalize closure (part_005 lines 32 to 40).
Non-objects and falsy values give null; characterId and relationType are
kept only when string-typed; the falsy test on the extracted strings means
an empty string is also rejected; name is kept when string-typed. -/
def normalize (value : JVal) : Option CharacterRelationshipEdge :=
  if value.falsy || !value.isObject then none
  else
    let characterId := (value.getField "characterId").strOpt
    let relationType := (value.getField "relationType").strOpt
    match characterId, relationType with
    | some cid, some rt =>
        if cid == "" || rt == "" then none
        else some ⟨cid, rt, (value.getField "name").strOpt⟩
    | _, _ => none

/-- Embedding of extractRelationships (part_005 lines 31 to 61).  The
collect helper (map normalize then filter Boolean) is List.filterMap
normalize.  The branch structure follows the source; where the source
falls through the envelope block with both inner checks false, the two
remaining checks are repeated verbatim (they are unreachable there, since
an object with a success key is not an array and its data field was just
found not to be an array, but the translation keeps them). -/
def extractRelationships (input : JVal) : List CharacterRelationshipEdge :=
  if input.falsy || !input.isObject then []
  else if input.hasField "success" && input.hasField "data" then
    let data := input.getField "data"
    if !data.falsy && ((data.getField "data").getArr?).isSome then
      (((data.getField "data").getArr?).getD []).filterMap normalize
    else if (data.getArr?).isSome then
      ((data.getArr?).getD []).filterMap normalize
    else if input.hasField "data" && ((input.getField "data").getArr?).isSome then
      (((input.getField "data").getArr?).getD []).filterMap normalize
    else if (input.getArr?).isSome then
      ((input.getArr?).getD []).filterMap normalize
    else []
  else if input.hasField "data" && ((input.getField "data").getArr?).isSome then
    (((input.getField "data").getArr?).getD []).filterMap normalize
  else if (input.getArr?).isSome then
    ((input.getArr?).getD []).filterMap normalize
  else []

/-- The payload array the source's branching selects for collection (empty
when no branch matches), mirroring extractRelationships branch for
branch. -/
def extractedArray (input : JVal) : List JVal :=
  if input.falsy || !input.isObject then []
  else if input.hasField "success" && input.hasField "data" then
    let data := input.getField "data"
    if !data.falsy && ((data.getField "data").getArr?).isSome then
      ((data.getField "data").getArr?).getD []
    else if (data.getArr?).isSome then
      (data.getArr?).getD []
    else if input.hasField "data" && ((input.getField "data").getArr?).isSome then
      ((input.getField "data").getArr?).getD []
    else if (input.getArr?).isSome then
      (input.getArr?).getD []
    else []
  else if input.hasField "data" && ((input.getField "data").getArr?).isSome then
    ((input.getField "data").getArr?).getD []
  else if (input.getArr?).isSome then
    (input.getArr?).getD []
  else []

/-! ## parseJwtPayload (src/unnamed/part_009, lines 568 to 584) -/

/-- The percent escape of one character from the source, the expression
that stands for a percent sign followed by ("00" + c.charCodeAt(0)
.toString(16)).slice(-2): lowercase hex of the char code, left-padded with
zeros, keeping the last two characters. -/
def percentEscape (c : Char) : String :=
  let hex := String.mk (Nat.toDigits 16 c.toNat)
  let padded := "00" ++ hex
  "%" ++ String.mk (padded.toList.drop (padded.toList.length - 2))

/-- The percent-encoding loop of the source: split the binary string into
characters, escape each, join. -/
def percentEncode (s : String) : String :=
  String.join (s.toList.map percentEscape)

/-- The base64url to base64 step of the source: replace every minus sign
with a plus sign and every underscore with a slash. -/
def base64urlToBase64 (s : String) : String :=
  String.map (fun c => if c = '_' then '/' else c)
    (String.map (fun c => if c = '-' then '+' else c) s)

/-- Embedding of parseJwtPayload (part_009 lines 568 to 584).  The
platform primitives atob, decodeURIComponent and JSON.parse are
parameters; each returns none exactly where the JavaScript function
throws, and the surrounding try/catch maps any such failure to null
(none).  A falsy or non-string token returns null before the try block. -/
def parseJwtPayload (atob : String → Option String)
    (decodeURIComponent : String → Option String)
    (jsonParse : String → Option JVal) (token : JVal) : Option JVal :=
  if token.falsy || !token.isString then none
  else
    let s := (token.strOpt).getD ""
    let parts := s.splitOn "."
    if parts.length < 2 then none
    else
      let base64 := base64urlToBase64 (parts.getD 1 "")
      match atob base64 with
      | none => none
      | some bin =>
        match decodeURIComponent (percentEncode bin) with
        | none => none
        | some json => jsonParse json

/-! ## Example values used by the witnesses -/

/-- A sample logged-in session. -/
def exSession : Session := ⟨"T1", "R1", "linuo"⟩

/-- A sample client state with no refresh in flight. -/
def exIdle : ClientState :=
  ⟨RefreshMode.idle, [], 0, 0, false, ⟨some exSession, some "T1"⟩⟩

/-- A sample request. -/
def exReq : Req :=
  ⟨"/api/v1/novels/works", "GET", [("Accept", "application/json")], ""⟩

/-- A second sample request. -/
def exReq2 : Req := ⟨"/api/v1/tasks", "GET", [], ""⟩

/-! ## Helper lemmas -/

theorem observeBatch_refreshing (rs : List Req) :
    ∀ st : ClientState, st.mode = RefreshMode.refreshing →
      observeBatch st rs = { st with waiters := st.waiters ++ rs } := by
  induction rs with
  | nil => intro st h; simp [observeBatch]
  | cons a as ih =>
    intro st h
    have h1 : observe401 st a = { st with waiters := st.waiters ++ [a] } := by
      unfold observe401; rw [h]
    have h2 : observeBatch st (a :: as) = observeBatch (observe401 st a) as := rfl
    rw [h2, h1, ih { st with waiters := st.waiters ++ [a] } h]
    simp

/-! ## Claim theorems -/

/-- C1: for every batch of requests failing with 401 in the same
synchronous tick while no refresh is in flight, exactly one refresh call
is issued, the machine is in its single REFRESHING episode with every
failed request queued; a 401 observed while a refresh is in flight only
queues (no second refresh call); and all queued requests are released only
when the episode settles, after which the machine is IDLE with an empty
queue. -/
theorem C1_single_flight :
    (∀ (st : ClientState) (rs : List Req),
        st.mode = RefreshMode.idle → rs ≠ [] →
        (observeBatch st rs).refreshCalls = st.refreshCalls + 1 ∧
        (observeBatch st rs).mode = RefreshMode.refreshing ∧
        (observeBatch st rs).waiters = st.waiters ++ rs) ∧
    (∀ (st : ClientState) (r : Req), st.mode = RefreshMode.refreshing →
        observe401 st r = { st with waiters := st.waiters ++ [r] }) ∧
    (∀ (st : ClientState) (s : Session),
        (settleSuccess st s).2 = st.waiters ∧
        (settleSuccess st s).1.mode = RefreshMode.idle ∧
        (settleSuccess st s).1.waiters = []) ∧
    (∀ st : ClientState,
        (settleFailure st).2 = st.waiters ∧
        (settleFailure st).1.mode = RefreshMode.idle ∧
        (settleFailure st).1.waiters = []) := by
  refine ⟨?_, ?_, ?_, ?_⟩
  · intro st rs hm hne
    cases rs with
    | nil => exact absurd rfl hne
    | cons a as =>
      have h1 : observe401 st a =
          { st with mode := RefreshMode.refreshing,
                    waiters := st.waiters ++ [a],
                    refreshCalls := st.refreshCalls + 1 } := by
        unfold observe401; rw [hm]
      have h2 : observeBatch st (a :: as) = observeBatch (observe401 st a) as := rfl
      rw [h2, h1, observeBatch_refreshing as _ rfl]
      exact ⟨rfl, rfl, by simp⟩
  · intro st r hm; unfold observe401; rw [hm]
  · intro st s; exact ⟨rfl, rfl, rfl⟩
  · intro st
    refine ⟨rfl, ?_, ?_⟩ <;>
      (unfold settleFailure failurePath; split <;> rfl)

/-- Witness for C1 at a concrete two-request batch. -/
theorem C1_single_flight_witness :
    (observeBatch exIdle [exReq, exReq2]).refreshCalls = exIdle.refreshCalls + 1 ∧
    (observeBatch exIdle [exReq, exReq2]).waiters = exIdle.waiters ++ [exReq, exReq2] :=
  ⟨(C1_single_flight.1 exIdle [exReq, exReq2] rfl (List.cons_ne_nil _ _)).1,
   (C1_single_flight.1 exIdle [exReq, exReq2] rfl (List.cons_ne_nil _ _)).2.2⟩

/-- C7: the failure path is idempotent within an episode — entered once or
twice from a state that has not yet redirected, exactly one redirect
navigation fires; it never fires more than one additional redirect; and a
failed settle releases all queued waiters while firing one redirect. -/
theorem C7_idempotent_logout :
    (∀ st : ClientState, st.redirected = false →
        (failurePath st).redirects = st.redirects + 1 ∧
        (failurePath (failurePath st)).redirects = st.redirects + 1) ∧
    (∀ st : ClientState, (failurePath st).redirects ≤ st.redirects + 1) ∧
    (∀ st : ClientState, st.redirected = false →
        (settleFailure st).1.redirects = st.redirects + 1 ∧
        (settleFailure st).2 = st.waiters) := by
  refine ⟨?_, ?_, ?_⟩
  · intro st h; unfold failurePath; simp [h]
  · intro st; unfold failurePath; split <;> simp
  · intro st h; unfold settleFailure failurePath; simp [h]

/-- Witness for C7 at a concrete state. -/
theorem C7_idempotent_logout_witness :
    (failurePath (failurePath exIdle)).redirects = exIdle.redirects + 1 :=
  (C7_idempotent_logout.1 exIdle rfl).2

/-- C8: the client adds the bearer header only when a session token is
present and the caller supplied no Authorization header; a caller-supplied
Authorization header (and the rest of the caller's headers) passes through
unmodified, and every request actually dispatched keeps the caller's url,
method and body, its headers being exactly the caller's headers framed by
buildHeaders with some token. -/
theorem C8_header_framing :
    (∀ (tok : Option String) (hdrs : List (String × String)),
        hasAuthHeader hdrs = true → buildHeaders tok hdrs = hdrs) ∧
    (∀ hdrs : List (String × String), buildHeaders none hdrs = hdrs) ∧
    (∀ (t : String) (hdrs : List (String × String)),
        hasAuthHeader hdrs = false →
        buildHeaders (some t) hdrs = hdrs ++ [("Authorization", "Bearer " ++ t)]) ∧
    (∀ (tok : Option String) (hdrs : List (String × String))
        (p : String × String), p ∈ hdrs → p ∈ buildHeaders tok hdrs) ∧
    (∀ (env : Env) (st : ClientState) (r : Req) (q : Req),
        q ∈ (request env st r).sent →
        q.url = r.url ∧ q.method = r.method ∧ q.body = r.body ∧
        ∃ tok, q.headers = buildHeaders tok r.headers) := by
  refine ⟨?_, ?_, ?_, ?_, ?_⟩
  · intro tok hdrs h; cases tok <;> simp [buildHeaders, h]
  · intro hdrs; rfl
  · intro t hdrs h; simp [buildHeaders, h]
  · intro tok hdrs p hp
    cases tok with
    | none => simpa [buildHeaders] using hp
    | some t =>
      simp only [buildHeaders]
      split
      · exact hp
      · exact List.mem_append_left _ hp
  · intro env st r q hq
    unfold request at hq
    rcases env with ⟨fr, ro, rr⟩
    dsimp only at hq
    cases fr with
    | netErr m =>
      simp only [List.mem_singleton] at hq
      subst hq; exact ⟨rfl, rfl, rfl, ⟨_, rfl⟩⟩
    | ok resp1 =>
      by_cases h1 : resp1.status = 401
      · simp only [h1, ne_eq, not_true_eq_false, if_false] at hq
        cases hm : st.mode with
        | refreshing =>
          rw [hm] at hq
          simp only [List.mem_singleton] at hq
          subst hq; exact ⟨rfl, rfl, rfl, ⟨_, rfl⟩⟩
        | idle =>
          rw [hm] at hq
          cases ro with
          | fail =>
            simp only [List.mem_singleton] at hq
            subst hq; exact ⟨rfl, rfl, rfl, ⟨_, rfl⟩⟩
          | ok newAT newRT =>
            cases rr with
            | netErr m =>
              simp only [List.mem_cons, List.mem_singleton, List.not_mem_nil,
                or_false] at hq
              rcases hq with hq | hq
              · subst hq; exact ⟨rfl, rfl, rfl, ⟨storedAccessToken st.storage, rfl⟩⟩
              · subst hq; exact ⟨rfl, rfl, rfl, ⟨some newAT, rfl⟩⟩
            | ok resp2 =>
              by_cases h2 : resp2.status = 401 <;>
                simp only [h2, ne_eq, not_true_eq_false, if_false,
                  not_false_eq_true, if_true, List.mem_cons, List.mem_singleton,
                  List.not_mem_nil, or_false] at hq <;>
                (rcases hq with hq | hq
                 · subst hq
                   exact ⟨rfl, rfl, rfl, ⟨storedAccessToken st.storage, rfl⟩⟩
                 · subst hq; exact ⟨rfl, rfl, rfl, ⟨some newAT, rfl⟩⟩)
      · simp only [h1, ne_eq, not_false_eq_true, if_true,
          List.mem_singleton] at hq
        subst hq; exact ⟨rfl, rfl, rfl, ⟨_, rfl⟩⟩

/-- Witness for C8 at a concrete token and header list. -/
theorem C8_header_framing_witness :
    buildHeaders (some "T2") [("Accept", "application/json")] =
      [("Accept", "application/json"), ("Authorization", "Bearer T2")] :=
  C8_header_framing.2.2.1 "T2" [("Accept", "application/json")] rfl

/-- C6: a response with any status other than 401 is returned to the
caller unchanged with no retry, no refresh call, no redirect and no
session mutation (the whole client state is untouched), and a transient
network error likewise propagates unchanged with no retry. -/
theorem C6_non401_passthrough :
    ∀ (env : Env) (st : ClientState) (r : Req),
      (∀ resp1 : Response, env.firstResult = NetResult.ok resp1 →
        resp1.status ≠ 401 →
        (request env st r).outcome = Outcome.resp resp1 ∧
        (request env st r).state = st ∧
        (request env st r).sent.length = 1) ∧
      (∀ m : String, env.firstResult = NetResult.netErr m →
        (request env st r).outcome = Outcome.netFail m ∧
        (request env st r).state = st ∧
        (request env st r).sent.length = 1) := by
  intro env st r
  constructor
  · intro resp1 h h1
    unfold request
    rw [h]
    simp [h1]
  · intro m h
    unfold request
    rw [h]
    exact ⟨rfl, rfl, rfl⟩

/-- Witness for C6 at a concrete 200 response and a concrete network
error. -/
theorem C6_non401_passthrough_witness :
    (request ⟨NetResult.ok ⟨200, "ok"⟩, RefreshOutcome.fail,
        NetResult.ok ⟨200, "ok"⟩⟩ exIdle exReq).outcome =
      Outcome.resp ⟨200, "ok"⟩ ∧
    (request ⟨NetResult.netErr "dns", RefreshOutcome.fail,
        NetResult.ok ⟨200, "ok"⟩⟩ exIdle exReq).outcome =
      Outcome.netFail "dns" :=
  ⟨((C6_non401_passthrough ⟨NetResult.ok ⟨200, "ok"⟩, RefreshOutcome.fail,
      NetResult.ok ⟨200, "ok"⟩⟩ exIdle exReq).1 ⟨200, "ok"⟩ rfl
      (by decide)).1,
   ((C6_non401_passthrough ⟨NetResult.netErr "dns", RefreshOutcome.fail,
      NetResult.ok ⟨200, "ok"⟩⟩ exIdle exReq).2 "dns" rfl).1⟩

/-- A sample environment where the first send gets 401, the refresh
succeeds with token T2 and a rotated refresh token, and the replay
succeeds. -/
def exEnvOk : Env :=
  ⟨NetResult.ok ⟨401, "unauthorized"⟩,
   RefreshOutcome.ok "T2" (some "R2"),
   NetResult.ok ⟨200, "ok"⟩⟩

/-- A sample environment where the replay is rejected with 401 again. -/
def exEnvTwice : Env :=
  ⟨NetResult.ok ⟨401, "a"⟩, RefreshOutcome.ok "T2" none,
   NetResult.ok ⟨401, "b"⟩⟩

/-- A sample environment where the refresh call fails. -/
def exEnvFail : Env :=
  ⟨NetResult.ok ⟨401, "a"⟩, RefreshOutcome.fail, NetResult.ok ⟨200, "ok"⟩⟩

/-- C2: when the first response is 401 and the refresh succeeds, the new
access token and the rotated refresh token are stored via the
session-write path in both locations, the queued waiters are all released
with success, the original request is replayed exactly once with the new
bearer token in its Authorization header, the caller receives the replay's
response, and exactly one refresh call was issued. -/
theorem C2_refresh_success_replay :
    ∀ (env : Env) (st : ClientState) (r : Req) (resp1 resp2 : Response)
      (s0 : Session) (t2 : String) (rt : Option String),
      st.mode = RefreshMode.idle →
      st.storage.durable = some s0 →
      hasAuthHeader r.headers = false →
      env.firstResult = NetResult.ok resp1 →
      resp1.status = 401 →
      env.refreshOut = RefreshOutcome.ok t2 rt →
      env.replayResult = NetResult.ok resp2 →
      resp2.status ≠ 401 →
      (request env st r).state.storage =
        ⟨some ⟨t2, rt.getD s0.refreshToken, s0.user⟩, some t2⟩ ∧
      (request env st r).released = st.waiters ∧
      (request env st r).releasedOk = true ∧
      (request env st r).sent =
        [{ r with headers :=
             r.headers ++ [("Authorization", "Bearer " ++ s0.accessToken)] },
         { r with headers :=
             r.headers ++ [("Authorization", "Bearer " ++ t2)] }] ∧
      (request env st r).outcome = Outcome.resp resp2 ∧
      (request env st r).state.refreshCalls = st.refreshCalls + 1 := by
  intro env st r resp1 resp2 s0 t2 rt hm hd hh h1 hs1 hro hrr hs2
  unfold request
  rw [h1, hro, hrr, hm]
  simp [hs1, hs2, hd, hh, rotatedSession, setAuthTokens, buildHeaders,
    storedAccessToken]

/-- Witness for C2 at a concrete 401-then-success environment. -/
theorem C2_refresh_success_replay_witness :
    (request exEnvOk exIdle exReq).state.storage =
      ⟨some ⟨"T2", "R2", "linuo"⟩, some "T2"⟩ ∧
    (request exEnvOk exIdle exReq).outcome = Outcome.resp ⟨200, "ok"⟩ :=
  ⟨(C2_refresh_success_replay exEnvOk exIdle exReq ⟨401, "unauthorized"⟩
      ⟨200, "ok"⟩ exSession "T2" (some "R2") rfl rfl (by decide) rfl rfl rfl
      rfl (by decide)).1,
   (C2_refresh_success_replay exEnvOk exIdle exReq ⟨401, "unauthorized"⟩
      ⟨200, "ok"⟩ exSession "T2" (some "R2") rfl rfl (by decide) rfl rfl rfl
      rfl (by decide)).2.2.2.2.1⟩

/-- C3: the client never dispatches more than two requests (the original
and at most one replay) and never issues more than one refresh call per
request call, and a 401 on the replay is terminal: the outcome is an
authentication failure with the session cleared and one redirect, with no
second refresh call. -/
theorem C3_at_most_one_replay :
    (∀ (env : Env) (st : ClientState) (r : Req),
        (request env st r).sent.length ≤ 2 ∧
        (request env st r).state.refreshCalls ≤ st.refreshCalls + 1) ∧
    (∀ (env : Env) (st : ClientState) (r : Req) (resp1 resp2 : Response)
        (t2 : String) (rt : Option String),
        st.mode = RefreshMode.idle → st.redirected = false →
        env.firstResult = NetResult.ok resp1 → resp1.status = 401 →
        env.refreshOut = RefreshOutcome.ok t2 rt →
        env.replayResult = NetResult.ok resp2 → resp2.status = 401 →
        (request env st r).outcome = Outcome.authFailure ∧
        (request env st r).state.refreshCalls = st.refreshCalls + 1 ∧
        (request env st r).state.storage = clearSession ∧
        (request env st r).state.redirects = st.redirects + 1 ∧
        (request env st r).sent.length = 2) := by
  constructor
  · intro env st r
    unfold request
    rcases env with ⟨fr, ro, rr⟩
    dsimp only
    cases fr with
    | netErr m => simp
    | ok resp1 =>
      by_cases h1 : resp1.status = 401
      · simp only [h1, ne_eq, not_true_eq_false, if_false]
        cases hm : st.mode with
        | refreshing => simp
        | idle =>
          dsimp only
          cases ro with
          | fail =>
            dsimp only
            refine ⟨by simp, ?_⟩
            unfold failurePath
            split <;> simp
          | ok t2 rt =>
            dsimp only
            cases rr with
            | netErr m => simp
            | ok resp2 =>
              dsimp only
              by_cases h2 : resp2.status = 401
              · simp only [h2, ne_eq, not_true_eq_false, if_false]
                refine ⟨by simp, ?_⟩
                unfold failurePath
                split <;> simp
              · simp [h2]
      · simp [h1]
  · intro env st r resp1 resp2 t2 rt hm hr h1 hs1 hro hrr hs2
    unfold request
    rw [h1, hro, hrr, hm]
    simp [hs1, hs2, failurePath, hr, clearSession]

/-- Witness for C3 at a concrete environment whose replay is rejected
again. -/
theorem C3_at_most_one_replay_witness :
    (request exEnvTwice exIdle exReq).outcome = Outcome.authFailure ∧
    (request exEnvTwice exIdle exReq).state.refreshCalls =
      exIdle.refreshCalls + 1 :=
  ⟨(C3_at_most_one_replay.2 exEnvTwice exIdle exReq ⟨401, "a"⟩ ⟨401, "b"⟩
      "T2" none rfl rfl rfl rfl rfl rfl rfl).1,
   (C3_at_most_one_replay.2 exEnvTwice exIdle exReq ⟨401, "a"⟩ ⟨401, "b"⟩
      "T2" none rfl rfl rfl rfl rfl rfl rfl).2.1⟩

/-- C4: when the refresh call fails, the session is cleared in both
storage locations, every queued waiter is released with failure (no caller
hangs), exactly one redirect to the login surface fires, the caller's
promise settles with an authentication failure, and the refresh endpoint
was called exactly once with no automatic retry (only the original request
was ever dispatched). -/
theorem C4_refresh_failure :
    ∀ (env : Env) (st : ClientState) (r : Req) (resp1 : Response),
      st.mode = RefreshMode.idle → st.redirected = false →
      env.firstResult = NetResult.ok resp1 → resp1.status = 401 →
      env.refreshOut = RefreshOutcome.fail →
      (request env st r).state.storage = clearSession ∧
      (request env st r).released = st.waiters ∧
      (request env st r).releasedOk = false ∧
      (request env st r).state.redirects = st.redirects + 1 ∧
      (request env st r).outcome = Outcome.authFailure ∧
      (request env st r).state.refreshCalls = st.refreshCalls + 1 ∧
      (request env st r).sent.length = 1 := by
  intro env st r resp1 hm hr h1 hs1 hro
  unfold request
  rw [h1, hro, hm]
  simp [hs1, failurePath, hr, clearSession]

/-- Witness for C4 at a concrete failing-refresh environment. -/
theorem C4_refresh_failure_witness :
    (request exEnvFail exIdle exReq).state.storage = clearSession ∧
    (request exEnvFail exIdle exReq).state.redirects = exIdle.redirects + 1 :=
  ⟨(C4_refresh_failure exEnvFail exIdle exReq ⟨401, "a"⟩ rfl rfl rfl rfl
      rfl).1,
   (C4_refresh_failure exEnvFail exIdle exReq ⟨401, "a"⟩ rfl rfl rfl rfl
      rfl).2.2.2.1⟩

/-- C5: every session-credential write updates both redundant locations
together — after a write through the session-write path the durable store
and the cookie hold the same access token, the cleared state is
consistent, settling an episode preserves consistency, and the whole
request flow preserves consistency of the two locations. -/
theorem C5_session_storage_consistency :
    (∀ s : Session, (setAuthTokens s).consistent) ∧
    Storage.consistent clearSession ∧
    (∀ (st : ClientState) (s : Session),
        (settleSuccess st s).1.storage.consistent) ∧
    (∀ st : ClientState, (settleFailure st).1.storage.consistent) ∧
    (∀ (env : Env) (st : ClientState) (r : Req),
        st.storage.consistent → (request env st r).state.storage.consistent) := by
  refine ⟨?_, ?_, ?_, ?_, ?_⟩
  · intro s; simp [Storage.consistent, storedAccessToken, setAuthTokens]
  · simp [Storage.consistent, storedAccessToken, clearSession]
  · intro st s; simp [settleSuccess, Storage.consistent, storedAccessToken,
      setAuthTokens]
  · intro st
    unfold settleFailure failurePath
    split <;> simp [Storage.consistent, storedAccessToken, clearSession]
  · intro env st r h
    unfold request
    rcases env with ⟨fr, ro, rr⟩
    dsimp only
    cases fr with
    | netErr m => exact h
    | ok resp1 =>
      by_cases h1 : resp1.status = 401
      · simp only [h1, ne_eq, not_true_eq_false, if_false]
        cases hm : st.mode with
        | refreshing => exact h
        | idle =>
          dsimp only
          cases ro with
          | fail =>
            dsimp only
            unfold failurePath
            split <;>
              simp [Storage.consistent, storedAccessToken, clearSession]
          | ok t2 rt =>
            dsimp only
            cases rr with
            | netErr m =>
              simp [Storage.consistent, storedAccessToken, setAuthTokens]
            | ok resp2 =>
              dsimp only
              by_cases h2 : resp2.status = 401
              · simp only [h2, ne_eq, not_true_eq_false, if_false]
                unfold failurePath
                split <;>
                  simp [Storage.consistent, storedAccessToken, clearSession]
              · simp [h2, Storage.consistent, storedAccessToken, setAuthTokens]
      · simp only [h1, ne_eq, not_false_eq_true, if_true]
        exact h

/-- Witness for C5: consistency of a concrete state is preserved through a
concrete refresh-success flow. -/
theorem C5_session_storage_consistency_witness :
    exIdle.storage.consistent ∧
    (request exEnvOk exIdle exReq).state.storage.consistent :=
  ⟨by decide,
   C5_session_storage_consistency.2.2.2.2 exEnvOk exIdle exReq (by decide)⟩

theorem extractRelationships_eq (input : JVal) :
    extractRelationships input = (extractedArray input).filterMap normalize := by
  unfold extractRelationships extractedArray
  dsimp only
  split_ifs <;> simp

/-- C9: extractRelationships is total and filtering — it always equals the
filterMap of normalize over the payload array its branching extracts;
every returned edge comes from a payload element whose characterId and
relationType read back as the strings of the edge and whose name
projection matches; an element lacking a string-typed characterId or
relationType is dropped by normalize; and an input that is neither an
array nor an object wrapping an array directly under data, or under
data.data of a success/data envelope, yields the empty list. -/
theorem C9_extractRelationships_filtering :
    (∀ input : JVal,
        extractRelationships input = (extractedArray input).filterMap normalize) ∧
    (∀ (input : JVal) (e : CharacterRelationshipEdge),
        e ∈ extractRelationships input →
        ∃ v, v ∈ extractedArray input ∧ normalize v = some e) ∧
    (∀ (v : JVal) (e : CharacterRelationshipEdge), normalize v = some e →
        (v.getField "characterId").strOpt = some e.characterId ∧
        (v.getField "relationType").strOpt = some e.relationType ∧
        e.name = (v.getField "name").strOpt) ∧
    (∀ v : JVal,
        (v.getField "characterId").strOpt = none ∨
        (v.getField "relationType").strOpt = none →
        normalize v = none) ∧
    (∀ input : JVal, input.getArr? = none →
        ((input.getField "data").getArr?) = none →
        (input.hasField "success" = false ∨
          (((input.getField "data").getField "data").getArr?) = none) →
        extractRelationships input = []) := by
  refine ⟨extractRelationships_eq, ?_, ?_, ?_, ?_⟩
  · intro input e he
    rw [extractRelationships_eq] at he
    exact List.mem_filterMap.mp he
  · intro v e h
    unfold normalize at h
    by_cases h0 : (v.falsy || !v.isObject) = true
    · rw [if_pos h0] at h; exact absurd h (by simp)
    · rw [if_neg h0] at h
      dsimp only at h
      rcases hc : (v.getField "characterId").strOpt with _ | cid
      · rw [hc] at h; simp at h
      · rw [hc] at h
        rcases hr : (v.getField "relationType").strOpt with _ | rt
        · rw [hr] at h; simp at h
        · rw [hr] at h
          dsimp only at h
          split_ifs at h with hif
          simp only [Option.some.injEq] at h
          subst h
          exact ⟨rfl, rfl, rfl⟩
  · intro v h
    unfold normalize
    split_ifs with h1
    · rfl
    · dsimp only
      rcases h with h | h
      · simp [h]
      · cases hx : (v.getField "characterId").strOpt <;> simp [h, hx]
  · intro input h1 h2 h3
    unfold extractRelationships
    dsimp only
    rcases h3 with h3 | h3 <;> split_ifs <;> simp_all

/-- Witness for C9 at a concrete non-matching input and a concrete
malformed element. -/
theorem C9_extractRelationships_filtering_witness :
    extractRelationships (JVal.str "nope") = [] ∧
    normalize (JVal.obj []) = none :=
  ⟨C9_extractRelationships_filtering.2.2.2.2 (JVal.str "nope") rfl rfl
      (Or.inl rfl),
   C9_extractRelationships_filtering.2.2.2.1 (JVal.obj []) (Or.inl rfl)⟩

/-- C10: parseJwtPayload is total — it yields a decoded value or none and
can never throw: a non-string or falsy (absent or empty) token gives none,
a token with fewer than two dot-separated segments gives none, and any
failure of the platform base64 decode, percent decode or JSON parse on
the second segment gives none. -/
theorem C10_parseJwtPayload_total :
    ∀ (atob decodeURIComponent : String → Option String)
      (jsonParse : String → Option JVal) (token : JVal),
      (parseJwtPayload atob decodeURIComponent jsonParse token = none ∨
        ∃ v, parseJwtPayload atob decodeURIComponent jsonParse token = some v) ∧
      (token.isString = false →
        parseJwtPayload atob decodeURIComponent jsonParse token = none) ∧
      (token.falsy = true →
        parseJwtPayload atob decodeURIComponent jsonParse token = none) ∧
      (∀ s : String, token = JVal.str s → (s.splitOn ".").length < 2 →
        parseJwtPayload atob decodeURIComponent jsonParse token = none) ∧
      (∀ s : String, token = JVal.str s →
        atob (base64urlToBase64 ((s.splitOn ".").getD 1 "")) = none →
        parseJwtPayload atob decodeURIComponent jsonParse token = none) ∧
      (∀ (s bin : String), token = JVal.str s →
        atob (base64urlToBase64 ((s.splitOn ".").getD 1 "")) = some bin →
        decodeURIComponent (percentEncode bin) = none →
        parseJwtPayload atob decodeURIComponent jsonParse token = none) ∧
      (∀ (s bin json : String), token = JVal.str s →
        atob (base64urlToBase64 ((s.splitOn ".").getD 1 "")) = some bin →
        decodeURIComponent (percentEncode bin) = some json →
        jsonParse json = none →
        parseJwtPayload atob decodeURIComponent jsonParse token = none) := by
  intro atob decodeURIComponent jsonParse token
  refine ⟨?_, ?_, ?_, ?_, ?_, ?_, ?_⟩
  · rcases hh : parseJwtPayload atob decodeURIComponent jsonParse token
      with _ | v
    · exact Or.inl rfl
    · exact Or.inr ⟨v, rfl⟩
  · intro h; simp [parseJwtPayload, h]
  · intro h; simp [parseJwtPayload, h]
  · intro s hs hlen
    subst hs
    by_cases hse : s = ""
    · simp [parseJwtPayload, JVal.falsy, hse]
    · simp [parseJwtPayload, JVal.falsy, JVal.isString, JVal.strOpt, hse, hlen]
  · intro s hs hatob
    subst hs
    by_cases hse : s = ""
    · simp [parseJwtPayload, JVal.falsy, hse]
    · by_cases hlen : (s.splitOn ".").length < 2
      · simp [parseJwtPayload, JVal.falsy, JVal.isString, JVal.strOpt, hse,
          hlen]
      · have hatob2 : atob (base64urlToBase64 ((s.splitOn ".")[1]?.getD "")) =
            none := by simpa using hatob
        simp [parseJwtPayload, JVal.falsy, JVal.isString, JVal.strOpt, hse,
          hlen, hatob2]
  · intro s bin hs hatob hdec
    subst hs
    by_cases hse : s = ""
    · simp [parseJwtPayload, JVal.falsy, hse]
    · by_cases hlen : (s.splitOn ".").length < 2
      · simp [parseJwtPayload, JVal.falsy, JVal.isString, JVal.strOpt, hse,
          hlen]
      · have hatob2 : atob (base64urlToBase64 ((s.splitOn ".")[1]?.getD "")) =
            some bin := by simpa using hatob
        simp [parseJwtPayload, JVal.falsy, JVal.isString, JVal.strOpt, hse,
          hlen, hatob2, hdec]
  · intro s bin json hs hatob hdec hjson
    subst hs
    by_cases hse : s = ""
    · simp [parseJwtPayload, JVal.falsy, hse]
    · by_cases hlen : (s.splitOn ".").length < 2
      · simp [parseJwtPayload, JVal.falsy, JVal.isString, JVal.strOpt, hse,
          hlen]
      · have hatob2 : atob (base64urlToBase64 ((s.splitOn ".")[1]?.getD "")) =
            some bin := by simpa using hatob
        simp [parseJwtPayload, JVal.falsy, JVal.isString, JVal.strOpt, hse,
          hlen, hatob2, hdec, hjson]

/-- Witness for C10 at a concrete non-string token. -/
theorem C10_parseJwtPayload_total_witness :
    JVal.null.isString = false ∧
    parseJwtPayload (fun _ => none) (fun _ => none) (fun _ => none)
      JVal.null = none :=
  ⟨rfl,
   (C10_parseJwtPayload_total (fun _ => none) (fun _ => none) (fun _ => none)
      JVal.null).2.1 rfl⟩

end GenNovel
